import Mathlib

/-!
# Verification of the Siglent SPD3303C power-supply driver

Shallow embedding of `pymeasure/instruments/siglent/spd3303c.py`.

The driver translates typed property accesses into SCPI-like command and
query strings sent over an instrument session.  The concrete driver file
(`spd3303c.py`) is embedded from the source; the generic property-descriptor
machinery it instantiates (`Instrument.control`, `Instrument.setting`,
the validators `strict_range` / `strict_discrete_set`, and the session
shutdown) lives in other files of the pymeasure package and is modelled
from the specification where marked.

Wire traffic is modelled as an explicit trace of operations (`WireOp` /
`SessionOp`); the device is a pure reply oracle `String → String` handed
to every getter.  Numeric values are rationals (`ℚ`); Python integers are
`Int`/`Nat`.  Fallible operations return `Except DriverError`.
-/

namespace SPD3303C

/-- Abstract error taxonomy of the spec (section 7): `rangeError` for a
voltage/current outside its closed range (Python `ValueError` from
`strict_range`), `invalidArgument` for a bad discrete value or channel
(Python `ValueError` / `AssertionError`), `protocolError` for a reply that
does not match the expected textual shape (Python `IndexError` /
`ValueError` while slicing and parsing the reply), `formatError` for a
value that cannot be `%`-formatted into a command template (Python
`TypeError`), `notReadable` for reading a write-only property. -/
inductive DriverError where
  | rangeError
  | invalidArgument
  | protocolError
  | formatError
  | notReadable
  deriving DecidableEq, Repr

/-- One operation on the instrument wire: a raw command write, or a
query together with the reply the device produced. -/
inductive WireOp where
  | write (cmd : String)
  | query (q : String) (reply : String)
  deriving DecidableEq, Repr

/-- One operation on the instrument session: wire traffic, or closing the
session. -/
inductive SessionOp where
  | wire (op : WireOp)
  | closeSession
  deriving DecidableEq, Repr

/-! ## Module-level constants (from `spd3303c.py`) -/

/-- `CONTROLLABLE_CHANNELS = [1, 2]` — channels supporting voltage/current
programming. -/
def CONTROLLABLE_CHANNELS : List Nat := [1, 2]

/-- `ALL_CHANNELS = CONTROLLABLE_CHANNELS + [3]`. -/
def ALL_CHANNELS : List Nat := CONTROLLABLE_CHANNELS ++ [3]

/-- `CHANNEL_STATUS_VALUE_MAP = {True: 'ON', False: 'OFF'}`, as an
association list. -/
def CHANNEL_STATUS_VALUE_MAP : List (Bool × String) :=
  [(true, "ON"), (false, "OFF")]

/-- `CHANNEL_VOLTAGE_RANGE = [0.0, 32.0]`. -/
def CHANNEL_VOLTAGE_RANGE : List ℚ := [0, 32]

/-- `CHANNEL_CURRENT_RANGE = [0, 3.2]`. -/
def CHANNEL_CURRENT_RANGE : List ℚ := [0, 3.2]

/-! ## Validators

The validators are defined in `pymeasure/instruments/validators.py`, which
is not part of the sources under verification. -/

/-- Modelled from the spec: the range validator (`strict_range` in
`pymeasure/instruments/validators.py`, not under src/): "validate value is
within [lo, hi] inclusive (fails with `RangeError` otherwise)"; the closed
range is given by the extrema of the `values` list attached to the
property. -/
def strict_range (value : ℚ) (values : List ℚ) : Except DriverError ℚ :=
  match values.min?, values.max? with
  | some lo, some hi =>
      if lo ≤ value ∧ value ≤ hi then .ok value else .error .rangeError
  | _, _ => .error .rangeError

/-- Modelled from the spec: the discrete-set validator
(`strict_discrete_set` in `pymeasure/instruments/validators.py`, not under
src/): "validates input is boolean-like", i.e. the value must be one of
the keys of the attached value map, failing with `InvalidArgument`
otherwise. -/
def strict_discrete_set (value : Bool) (values : List (Bool × String)) :
    Except DriverError Bool :=
  if values.any (fun p => p.1 == value) then .ok value
  else .error .invalidArgument

/-! ## Command formatting

Python builds each outgoing command by `%`-formatting the value into the
command template (`set_command % value`).  The templates in this driver
contain at most one `%s` placeholder, so the model covers exactly that:
a template with one `%s` substitutes the argument, any other shape (no
placeholder, or several) raises `TypeError` when given one argument,
modelled as `formatError`. -/

/-- Split a character list at every non-overlapping occurrence of `%s`
(the analogue of `split0x` below for the placeholder token). -/
def splitPercentS : List Char → List (List Char)
  | [] => [[]]
  | [c] => [[c]]
  | c :: d :: rest =>
      if c = '%' ∧ d = 's' then [] :: splitPercentS rest
      else
        match splitPercentS (d :: rest) with
        | g :: gs => (c :: g) :: gs
        | [] => [[c]]

/-- Python `template % arg` restricted to `%s` templates: exactly one
`%s` substitutes the argument; no placeholder (or several) with one
argument raises `TypeError`. -/
def pyFormat (template : String) (arg : String) : Except DriverError String :=
  match splitPercentS template.toList with
  | [pre, post] => .ok ⟨pre ++ arg.toList ++ post⟩
  | _ => .error .formatError

/-- Rendering of a rational value into a command string.  The exact
decimal text Python's `str()` produces for a float is not modelled; no
verified property depends on the rendered digits, only on the command
skeleton around them. -/
def pyStr (q : ℚ) : String := toString q

/-! ## Reply parsing

`_get_system_status` runs `self.ask('SYSTem:STATus?').split('0x')[1]` and
then `int(response, 16)`.  `str.split` and `int(·, 16)` are Python
builtins; they are embedded directly below. -/

/-- Python `s.split('0x')` on the character list of `s`: split at every
non-overlapping occurrence of `"0x"`, left to right.  Always returns at
least one field. -/
def split0x : List Char → List (List Char)
  | [] => [[]]
  | [c] => [[c]]
  | c :: d :: rest =>
      if c = '0' ∧ d = 'x' then [] :: split0x rest
      else
        match split0x (d :: rest) with
        | g :: gs => (c :: g) :: gs
        | [] => [[c]]

/-- Value of one hexadecimal digit, `none` for any other character. -/
def hexVal (c : Char) : Option Nat :=
  if '0' ≤ c ∧ c ≤ '9' then some (c.toNat - '0'.toNat)
  else if 'a' ≤ c ∧ c ≤ 'f' then some (c.toNat - 'a'.toNat + 10)
  else if 'A' ≤ c ∧ c ≤ 'F' then some (c.toNat - 'A'.toNat + 10)
  else none

/-- Hex digit sequence after the first digit: digits with single
underscores allowed only between digits (Python's integer grammar). -/
def hexDigits : List Char → Nat → Option Nat
  | [], acc => some acc
  | '_' :: c :: rest, acc =>
      match hexVal c with
      | some d => hexDigits rest (acc * 16 + d)
      | none => none
  | ['_'], _ => none
  | c :: rest, acc =>
      match hexVal c with
      | some d => hexDigits rest (acc * 16 + d)
      | none => none

/-- Unsigned hex number: at least one digit, then `hexDigits`. -/
def hexNat : List Char → Option Nat
  | c :: rest => (hexVal c).bind fun d => hexDigits rest d
  | [] => none

/-- Drop an optional `0x`/`0X` base prefix (with Python's optional single
underscore after the prefix). -/
def dropHexPrefix (cs : List Char) : List Char :=
  match cs with
  | '0' :: x :: rest =>
      if x = 'x' ∨ x = 'X' then
        match rest with
        | '_' :: rest2 => rest2
        | _ => rest
      else cs
  | _ => cs

/-- Python whitespace stripped by `int(s, 16)`. -/
def isPySpace (c : Char) : Bool :=
  c = ' ' ∨ c = '\t' ∨ c = '\n' ∨ c = '\r' ∨ c = '\x0b' ∨ c = '\x0c'

/-- Python `int(s, 16)`: strip whitespace, optional sign, optional
`0x`/`0X` prefix, then hex digits (underscores between digits); `none`
models `ValueError`. -/
def pyIntBase16 (cs : List Char) : Option Int :=
  let cs := (cs.dropWhile isPySpace).reverse.dropWhile isPySpace |>.reverse
  match cs with
  | '-' :: rest => (hexNat (dropHexPrefix rest)).map fun n => -(n : Int)
  | '+' :: rest => (hexNat (dropHexPrefix rest)).map fun n => (n : Int)
  | rest => (hexNat (dropHexPrefix rest)).map fun n => (n : Int)

/-- Parsing part of `SPD3303C._get_system_status`: take field 1 of
`reply.split('0x')` (Python `IndexError` when `'0x'` does not occur,
modelled as `protocolError`) and parse it with `int(·, 16)` (Python
`ValueError` on failure, modelled as `protocolError`). -/
def parse_system_status (reply : String) : Except DriverError Int :=
  match split0x reply.toList with
  | _ :: seg :: _ =>
      match pyIntBase16 seg with
      | some n => .ok n
      | none => .error .protocolError
  | _ => .error .protocolError

/-- `SPD3303C._get_system_status`: sends the query `SYSTem:STATus?` and
parses the reply; the device is the reply oracle `dev`. -/
def _get_system_status (dev : String → String) :
    Except DriverError Int × List WireOp :=
  (parse_system_status (dev "SYSTem:STATus?"),
   [.query "SYSTem:STATus?" (dev "SYSTem:STATus?")])

/-- `SPD3303C._decode_channel_status`: asserts the channel is
controllable (`AssertionError` modelled as `invalidArgument`), computes
`mask = 1 << (channel + 3)` and returns `'ON'` when `status & mask != 0`,
else `'OFF'`. -/
def _decode_channel_status (status : Int) (channel : Nat) :
    Except DriverError String :=
  if channel ∈ CONTROLLABLE_CHANNELS then
    let mask : Int := ((1 <<< (channel + 3) : Nat) : Int)
    .ok (if Int.land status mask ≠ 0 then "ON" else "OFF")
  else .error .invalidArgument

/-! ## Property descriptors

Modelled from the spec: the declarative property mechanism
(`Instrument.control` / `Instrument.setting` in
`pymeasure/instruments/instrument.py`, not under src/) attaches to each
attribute a descriptor record `{readCommand, writeCommandTemplate,
validator, valueMap|range, postProcess}` interpreted by one generic
get/set routine.  The first positional argument of `Instrument.control`
is the read (get) command, the second the write (set) command template —
the order `ch1_status` uses in the source. -/
structure Control where
  readCommand : String
  writeCommandTemplate : String
  deriving DecidableEq, Repr

/-! The descriptor instances below copy the positional arguments exactly
as `spd3303c.py` passes them. -/

/-- `Instrument.control('SYSTem:STATus?', 'OUTPut CH1,%s', ...)`. -/
def ch1_status_control : Control := ⟨"SYSTem:STATus?", "OUTPut CH1,%s"⟩

/-- `Instrument.control('SYSTem:STATus?', 'OUTPut CH2,%s', ...)`. -/
def ch2_status_control : Control := ⟨"SYSTem:STATus?", "OUTPut CH2,%s"⟩

/-- `Instrument.setting('OUTPut CH3,%s', ...)` — a write-only property,
only a set command. -/
def ch3_status_setting : String := "OUTPut CH3,%s"

/-- `Instrument.control('CH1:VOLTage %s', 'CH1:VOLTage?', ...)` — note the
positional order in the source file. -/
def ch1_voltage_control : Control := ⟨"CH1:VOLTage %s", "CH1:VOLTage?"⟩

/-- `Instrument.control('CH2:VOLTage %s', 'CH2:VOLTage?', ...)`. -/
def ch2_voltage_control : Control := ⟨"CH2:VOLTage %s", "CH2:VOLTage?"⟩

/-- `Instrument.control('CH1:CURRent %s', 'CH1:CURRent?', ...)`. -/
def ch1_current_control : Control := ⟨"CH1:CURRent %s", "CH1:CURRent?"⟩

/-- `Instrument.control('CH2:CURRent %s', 'CH2:CURRent?', ...)`. -/
def ch2_current_control : Control := ⟨"CH2:CURRent %s", "CH2:CURRent?"⟩

/-! ## Generic get/set routines -/

/-- Modelled from the spec: the generic set routine for a property with a
value map (status properties): "set: validates input is boolean-like,
maps {true→\"ON\", false→\"OFF\"}, sends `OUTPut CH{n},<token>`".  The
validator runs first; only after validation and mapping is the token
formatted into the write template and written, so a failure sends
nothing. -/
def set_mapped (tmpl : String) (vmap : List (Bool × String)) (value : Bool) :
    Except DriverError Unit × List WireOp :=
  match strict_discrete_set value vmap with
  | .error e => (.error e, [])
  | .ok v =>
      match vmap.lookup v with
      | none => (.error .invalidArgument, [])
      | some token =>
          match pyFormat tmpl token with
          | .error e => (.error e, [])
          | .ok cmd => (.ok (), [.write cmd])

/-- Modelled from the spec: the generic set routine for a property with a
numeric range (voltage/current properties): "set: validate value is
within the closed range (fails with `RangeError` otherwise), send the
formatted command".  Validation precedes any write. -/
def set_ranged (tmpl : String) (range : List ℚ) (value : ℚ) :
    Except DriverError Unit × List WireOp :=
  match strict_range value range with
  | .error e => (.error e, [])
  | .ok v =>
      match pyFormat tmpl (pyStr v) with
      | .error e => (.error e, [])
      | .ok cmd => (.ok (), [.write cmd])

/-- Decimal strings accepted as a numeric reply: optional sign, digits
with at most one decimal point.  (Python's `float()` also accepts
exponents and `inf`/`nan`; the spec's reply format for these properties
is a plain `<float>`, which is what is modelled.) -/
def pyFloat? (s : String) : Option ℚ :=
  let core (cs : List Char) : Option ℚ :=
    match cs.splitOn '.' with
    | [ds] =>
        if ds ≠ [] ∧ ds.all Char.isDigit then
          some ((ds.foldl (fun a c => a * 10 + (c.toNat - '0'.toNat)) 0 : ℕ) : ℚ)
        else none
    | [ds, fs] =>
        if (ds ≠ [] ∨ fs ≠ []) ∧ ds.all Char.isDigit ∧ fs.all Char.isDigit then
          some (((ds.foldl (fun a c => a * 10 + (c.toNat - '0'.toNat)) 0 : ℕ) : ℚ)
            + ((fs.foldl (fun a c => a * 10 + (c.toNat - '0'.toNat)) 0 : ℕ) : ℚ)
              / ((10 : ℚ) ^ fs.length))
        else none
    | _ => none
  let cs := (s.toList.dropWhile isPySpace).reverse.dropWhile isPySpace |>.reverse
  match cs with
  | '-' :: rest => (core rest).map Neg.neg
  | '+' :: rest => core rest
  | rest => core rest

/-- Modelled from the spec: the generic get routine for a numeric
property: "get: send the read command, parse reply as a floating-point
number"; an unparsable reply is a `ProtocolError`. -/
def get_ranged (dev : String → String) (d : Control) :
    Except DriverError ℚ × List WireOp :=
  let reply := dev d.readCommand
  ((match pyFloat? reply with
    | some q => .ok q
    | none => .error .protocolError),
   [.query d.readCommand reply])

/-- Modelled from the spec: the generic get routine for a status
property: "get: calls GetSystemStatus then DecodeChannelStatus(status,
channel); returns boolean" — the decoded `'ON'`/`'OFF'` token is mapped
back through the value map to the boolean key. -/
def get_status (dev : String → String) (channel : Nat) :
    Except DriverError Bool × List WireOp :=
  (match (_get_system_status dev).1 with
   | .error e => .error e
   | .ok st =>
       match _decode_channel_status st channel with
       | .error e => .error e
       | .ok token =>
           match CHANNEL_STATUS_VALUE_MAP.find? (fun p => p.2 == token) with
           | some p => .ok p.1
           | none => .error .invalidArgument,
   (_get_system_status dev).2)

/-! ## The driver's properties -/

/-- Setter of `ch1_status`. -/
def ch1_status_set (b : Bool) : Except DriverError Unit × List WireOp :=
  set_mapped ch1_status_control.writeCommandTemplate CHANNEL_STATUS_VALUE_MAP b

/-- Setter of `ch2_status`. -/
def ch2_status_set (b : Bool) : Except DriverError Unit × List WireOp :=
  set_mapped ch2_status_control.writeCommandTemplate CHANNEL_STATUS_VALUE_MAP b

/-- Setter of `ch3_status`. -/
def ch3_status_set (b : Bool) : Except DriverError Unit × List WireOp :=
  set_mapped ch3_status_setting CHANNEL_STATUS_VALUE_MAP b

/-- Getter of `ch1_status` (`get_process` decodes channel 1). -/
def ch1_status_get (dev : String → String) :
    Except DriverError Bool × List WireOp :=
  get_status dev 1

/-- Getter of `ch2_status` (`get_process` decodes channel 2). -/
def ch2_status_get (dev : String → String) :
    Except DriverError Bool × List WireOp :=
  get_status dev 2

/-- Modelled from the spec: reading a write-only `Instrument.setting`
property ("write-only semantically exposed as a settable property with no
paired query") raises without performing any instrument I/O. -/
def ch3_status_get : Except DriverError Bool × List WireOp :=
  (.error .notReadable, [])

/-- Setter of `ch1_voltage`: validates against `CHANNEL_VOLTAGE_RANGE`,
then formats the value into the descriptor's write template. -/
def ch1_voltage_set (v : ℚ) : Except DriverError Unit × List WireOp :=
  set_ranged ch1_voltage_control.writeCommandTemplate CHANNEL_VOLTAGE_RANGE v

/-- Setter of `ch2_voltage`. -/
def ch2_voltage_set (v : ℚ) : Except DriverError Unit × List WireOp :=
  set_ranged ch2_voltage_control.writeCommandTemplate CHANNEL_VOLTAGE_RANGE v

/-- Setter of `ch1_current`: validates against `CHANNEL_CURRENT_RANGE`. -/
def ch1_current_set (i : ℚ) : Except DriverError Unit × List WireOp :=
  set_ranged ch1_current_control.writeCommandTemplate CHANNEL_CURRENT_RANGE i

/-- Setter of `ch2_current`. -/
def ch2_current_set (i : ℚ) : Except DriverError Unit × List WireOp :=
  set_ranged ch2_current_control.writeCommandTemplate CHANNEL_CURRENT_RANGE i

/-- Getter of `ch1_voltage`: queries the descriptor's read command. -/
def ch1_voltage_get (dev : String → String) :
    Except DriverError ℚ × List WireOp :=
  get_ranged dev ch1_voltage_control

/-- Getter of `ch2_voltage`. -/
def ch2_voltage_get (dev : String → String) :
    Except DriverError ℚ × List WireOp :=
  get_ranged dev ch2_voltage_control

/-- Getter of `ch1_current`. -/
def ch1_current_get (dev : String → String) :
    Except DriverError ℚ × List WireOp :=
  get_ranged dev ch1_current_control

/-- Getter of `ch2_current`. -/
def ch2_current_get (dev : String → String) :
    Except DriverError ℚ × List WireOp :=
  get_ranged dev ch2_current_control

/-! ## Lifecycle -/

/-- Sequence setter results, stopping at the first failure (a raised
Python exception aborts the statement sequence), concatenating the wire
traffic of the steps that ran. -/
def seqSets : List (Except DriverError Unit × List WireOp) →
    Except DriverError Unit × List WireOp
  | [] => (.ok (), [])
  | (r, t) :: rest =>
      match r with
      | .error e => (.error e, t)
      | .ok _ =>
          let s := seqSets rest
          (s.1, t ++ s.2)

/-- `SPD3303C.__init__` after the session is bound: `self.ch1_status =
False; self.ch2_status = False; self.ch3_status = False`. -/
def SPD3303C_init : Except DriverError Unit × List WireOp :=
  seqSets [ch1_status_set false, ch2_status_set false, ch3_status_set false]

/-- `SPD3303C.shutdown`: set the three channel statuses to `False`, then
`super().shutdown()`.  Modelled from the spec for the superclass part
(`Instrument.shutdown`, not under src/): "then releases/closes the
underlying session" — one `closeSession` operation. -/
def shutdown : Except DriverError Unit × List SessionOp :=
  let s := seqSets [ch1_status_set false, ch2_status_set false, ch3_status_set false]
  match s.1 with
  | .ok _ => (.ok (), s.2.map SessionOp.wire ++ [SessionOp.closeSession])
  | .error e => (.error e, s.2.map SessionOp.wire)

/-! ## Helper lemmas -/

lemma split0x_ne_nil (l : List Char) : split0x l ≠ [] := by
  induction l using split0x.induct with
  | case1 => simp [split0x]
  | case2 c => simp [split0x]
  | case3 c d rest h ih => simp [split0x, h]
  | case4 c d rest h g gs hs ih => simp [split0x, if_neg h, hs]
  | case5 c d rest h hs ih => exact absurd hs ih

/-- When `0x` does not occur in `l`, splitting leaves the whole list as
the single field. -/
lemma split0x_of_no_hex_marker (l : List Char) (h : ¬ ['0', 'x'] <:+: l) :
    split0x l = [l] := by
  induction l using split0x.induct with
  | case1 => rfl
  | case2 c => rfl
  | case3 c d rest h3 ih =>
      exact absurd ⟨[], rest, by simp [h3.1, h3.2]⟩ h
  | case4 c d rest h4 g gs hs ih =>
      have hni : ¬ ['0', 'x'] <:+: (d :: rest) := fun hi => h (List.infix_cons hi)
      have hsingle := ih hni
      rw [hs] at hsingle
      simp only [split0x, if_neg h4, hs]
      simp_all
  | case5 c d rest h5 hs ih =>
      exact absurd hs (split0x_ne_nil _)

/-- A decoded system status drives the boolean result of `get_status`:
the property returns `true` exactly when the decoded token is `'ON'`. -/
lemma get_status_ok (dev : String → String) (n : Nat) (st : Int) (tok : String)
    (hst : (_get_system_status dev).1 = .ok st)
    (htok : _decode_channel_status st n = .ok tok) :
    (get_status dev n).1 = .ok (decide (tok = "ON")) := by
  have htok' := htok
  simp only [_decode_channel_status] at htok'
  split at htok'
  · have hcases : tok = "ON" ∨ tok = "OFF" := by
      rcases Except.ok.inj htok' |>.symm with h
      split at h
      · exact Or.inl h
      · exact Or.inr h
    simp only [get_status, hst, htok]
    rcases hcases with h | h <;> subst h <;> rfl
  · exact absurd htok' (by simp)

/-- `pyFormat` fails only with `formatError`. -/
lemma pyFormat_error_eq (t a : String) (e : DriverError)
    (h : pyFormat t a = .error e) : e = .formatError := by
  unfold pyFormat at h
  split at h
  · exact absurd h (by simp)
  · exact (Except.error.inj h).symm

/-- `set_ranged` over a two-element range list reports `rangeError`
exactly for values outside the closed interval. -/
lemma set_ranged_rangeError_iff (t : String) (lo hi : ℚ) (hlohi : lo ≤ hi) (v : ℚ) :
    (set_ranged t [lo, hi] v).1 = .error .rangeError ↔ v < lo ∨ hi < v := by
  have hmin : List.min? [lo, hi] = some lo := by
    simp [List.min?, min_eq_left hlohi]
  have hmax : List.max? [lo, hi] = some hi := by
    simp [List.max?, max_eq_right hlohi]
  unfold set_ranged strict_range
  simp only [hmin, hmax]
  by_cases h : lo ≤ v ∧ v ≤ hi
  · rw [if_pos h]
    constructor
    · intro hr
      rcases hf : pyFormat t (pyStr v) with s | e <;> simp [hf] at hr
      exact absurd (pyFormat_error_eq t (pyStr v) _ hf) (by simp [hr])
    · intro hr
      rcases hr with hr | hr
      · exact absurd h (by push_neg; intro h1; exact absurd hr (not_lt.mpr h1))
      · exact absurd h.2 (not_le.mpr hr)
  · rw [if_neg h]
    push_neg at h
    constructor
    · intro _
      rcases le_or_lt lo v with h1 | h1
      · exact Or.inr (h h1)
      · exact Or.inl h1
    · intro _; rfl

/-- A failed `set_ranged` never wrote anything. -/
lemma set_ranged_error_no_write (t : String) (r : List ℚ) (v : ℚ) (e : DriverError)
    (h : (set_ranged t r v).1 = .error e) : (set_ranged t r v).2 = [] := by
  unfold set_ranged at h ⊢
  rcases h1 : strict_range v r with e1 | v1 <;> simp only [h1] at h ⊢
  rcases h2 : pyFormat t (pyStr v1) with e2 | s <;> simp only [h2] at h ⊢
  exact absurd h (by simp)

/-- A failed `set_mapped` never wrote anything. -/
lemma set_mapped_error_no_write (t : String) (m : List (Bool × String)) (b : Bool)
    (e : DriverError) (h : (set_mapped t m b).1 = .error e) :
    (set_mapped t m b).2 = [] := by
  unfold set_mapped at h ⊢
  rcases h1 : strict_discrete_set b m with e1 | v1 <;> simp only [h1] at h ⊢
  rcases h2 : m.lookup v1 with _ | tok <;> simp only [h2] at h ⊢
  rcases h3 : pyFormat t tok with e3 | s <;> simp only [h3] at h ⊢
  exact absurd h (by simp)

lemma current_min? : List.min? CHANNEL_CURRENT_RANGE = some 0 := by
  simp only [CHANNEL_CURRENT_RANGE, List.min?, List.foldl]
  norm_num [min_def]

lemma current_max? : List.max? CHANNEL_CURRENT_RANGE = some 3.2 := by
  simp only [CHANNEL_CURRENT_RANGE, List.max?, List.foldl]
  norm_num [max_def]

/-- In-range current set on channel 1: the validator passes, then the
`%`-formatting of the (swapped) write template fails. -/
lemma ch1_current_set_one : ch1_current_set 1 = (.error .formatError, []) := by
  unfold ch1_current_set set_ranged strict_range
  simp only [current_min?, current_max?]
  rw [if_pos (by norm_num)]
  rfl

/-- In-range current set on channel 2, as for channel 1. -/
lemma ch2_current_set_one : ch2_current_set 1 = (.error .formatError, []) := by
  unfold ch2_current_set set_ranged strict_range
  simp only [current_min?, current_max?]
  rw [if_pos (by norm_num)]
  rfl

/-! ## Claims -/

/-- C1: the voltage/current descriptors are wired backwards.  The claim
says setting `ch{n}_voltage` sends `CH{n}:VOLTage <value>` and getting it
sends `CH{n}:VOLTage?` (likewise for current), but the source passes the
two command strings to `Instrument.control` in swapped positions (compare
`ch1_status_control`, whose read command is in the first position): an
in-range set `%`-formats the value into the placeholder-less query string
and fails without sending anything, and a get sends the literal template
`CH{n}:VOLTage %s` as its query. -/
theorem c1_swapped_commands :
    (ch1_voltage_set 5 = (.error .formatError, []) ∧
     ch2_voltage_set 5 = (.error .formatError, []) ∧
     ch1_current_set 1 = (.error .formatError, []) ∧
     ch2_current_set 1 = (.error .formatError, [])) ∧
    ((ch1_voltage_get (fun _ => "3.3")).2 = [.query "CH1:VOLTage %s" "3.3"] ∧
     (ch2_voltage_get (fun _ => "3.3")).2 = [.query "CH2:VOLTage %s" "3.3"] ∧
     (ch1_current_get (fun _ => "0.5")).2 = [.query "CH1:CURRent %s" "0.5"] ∧
     (ch2_current_get (fun _ => "0.5")).2 = [.query "CH2:CURRent %s" "0.5"]) ∧
    (ch1_voltage_control = ⟨"CH1:VOLTage %s", "CH1:VOLTage?"⟩ ∧
     ch1_status_control = ⟨"SYSTem:STATus?", "OUTPut CH1,%s"⟩) :=
  ⟨⟨rfl, rfl, ch1_current_set_one, ch2_current_set_one⟩,
   ⟨rfl, rfl, rfl, rfl⟩, ⟨rfl, rfl⟩⟩

/-- C2: for every channel n ∈ {1,2,3} and boolean b, setting
`ch{n}_status` sends exactly `OUTPut CH{n},ON` when b is true and
`OUTPut CH{n},OFF` when b is false, and nothing else. -/
theorem c2_status_tokens :
    ∀ b : Bool,
      ch1_status_set b =
        (.ok (), [.write ("OUTPut CH1," ++ (if b then "ON" else "OFF"))]) ∧
      ch2_status_set b =
        (.ok (), [.write ("OUTPut CH2," ++ (if b then "ON" else "OFF"))]) ∧
      ch3_status_set b =
        (.ok (), [.write ("OUTPut CH3," ++ (if b then "ON" else "OFF"))]) := by
  intro b
  cases b <;> exact ⟨rfl, rfl, rfl⟩

/-- C3: getting `ch{1,2}_status` performs exactly the system-status
query of `_get_system_status`, and when that query parses to a status
word, the result is the boolean translation of
`_decode_channel_status status channel` — `true` for `'ON'`, `false` for
`'OFF'`. -/
theorem c3_status_pipeline (dev : String → String) :
    ((ch1_status_get dev).2 = (_get_system_status dev).2 ∧
     (ch2_status_get dev).2 = (_get_system_status dev).2) ∧
    (∀ st : Int, (_get_system_status dev).1 = .ok st →
      (∀ tok, _decode_channel_status st 1 = .ok tok →
        (ch1_status_get dev).1 = .ok (decide (tok = "ON"))) ∧
      (∀ tok, _decode_channel_status st 2 = .ok tok →
        (ch2_status_get dev).1 = .ok (decide (tok = "ON")))) := by
  refine ⟨⟨rfl, rfl⟩, fun st hst => ⟨fun tok htok => ?_, fun tok htok => ?_⟩⟩
  · exact get_status_ok dev 1 st tok hst htok
  · exact get_status_ok dev 2 st tok hst htok

/-- Witness for C3: on a device replying `0x30`, the status word is 48,
channel 1 decodes to `'ON'` and the property reads back `true`. -/
theorem c3_witness :
    ((_get_system_status (fun _ => "0x30")).1 = .ok 48 ∧
     _decode_channel_status 48 1 = .ok "ON") ∧
    (ch1_status_get (fun _ => "0x30")).1 = .ok (decide (("ON" : String) = "ON")) :=
  ⟨⟨rfl, rfl⟩,
   ((c3_status_pipeline (fun _ => "0x30")).2 48 rfl).1 "ON" rfl⟩

/-- C4: for a controllable channel, `_decode_channel_status` answers
`'ON'` exactly when bit `channel + 3` of the status word is set (mask
`1 << (channel + 3)`), `'OFF'` exactly when it is clear; in particular
status `0x30` is `'ON'` and `0x20` is `'OFF'` on channel 1. -/
theorem c4_decode_bit :
    (∀ channel : Nat, channel ∈ CONTROLLABLE_CHANNELS → ∀ status : Int,
        (_decode_channel_status status channel = .ok "ON" ↔
          Int.land status ((1 <<< (channel + 3) : Nat) : Int) ≠ 0) ∧
        (_decode_channel_status status channel = .ok "OFF" ↔
          Int.land status ((1 <<< (channel + 3) : Nat) : Int) = 0)) ∧
    _decode_channel_status 0x30 1 = .ok "ON" ∧
    _decode_channel_status 0x20 1 = .ok "OFF" := by
  refine ⟨?_, rfl, rfl⟩
  intro ch hch st
  simp only [_decode_channel_status, if_pos hch]
  by_cases hb : Int.land st ((1 <<< (ch + 3) : Nat) : Int) = 0 <;> simp [hb]

/-- Witness for C4: channel 1 is controllable and status `0x30` has the
`0x10` bit set. -/
theorem c4_witness :
    (1 ∈ CONTROLLABLE_CHANNELS) ∧
    (_decode_channel_status 0x30 1 = .ok "ON" ↔
      Int.land 0x30 ((1 <<< (1 + 3) : Nat) : Int) ≠ 0) :=
  ⟨by decide, (c4_decode_bit.1 1 (by decide) 0x30).1⟩

/-- C5: `_get_system_status` sends exactly the query `SYSTem:STATus?`;
the reply `SPD3303C STATus 0x1A` parses to 26; a reply in which `0x`
does not occur fails with `protocolError`, as does a reply whose hex
segment is unparseable. -/
theorem c5_system_status :
    ((_get_system_status (fun _ => "SPD3303C STATus 0x1A")).1 = .ok 26 ∧
     (_get_system_status (fun _ => "SPD3303C STATus 0x1A")).2 =
       [.query "SYSTem:STATus?" "SPD3303C STATus 0x1A"]) ∧
    (∀ dev : String → String,
       (_get_system_status dev).2 = [.query "SYSTem:STATus?" (dev "SYSTem:STATus?")]) ∧
    (∀ reply : String, ¬ (['0', 'x'] <:+: reply.toList) →
       parse_system_status reply = .error .protocolError) ∧
    parse_system_status "SPD3303C STATus 0xZZ" = .error .protocolError := by
  refine ⟨⟨rfl, rfl⟩, fun dev => rfl, ?_, rfl⟩
  intro reply h
  unfold parse_system_status
  rw [split0x_of_no_hex_marker _ h]

/-- Witness for C5: a concrete reply without `0x` is rejected. -/
theorem c5_witness :
    (¬ (['0', 'x'] <:+: "NO HEX IN REPLY".toList)) ∧
    parse_system_status "NO HEX IN REPLY" = .error .protocolError :=
  ⟨by decide, c5_system_status.2.2.1 "NO HEX IN REPLY" (by decide)⟩

/-- C6: construction issues exactly the three OFF writes for channels
1, 2, 3 in that order; `shutdown` issues the same three OFF writes in
order and then closes the session exactly once. -/
theorem c6_lifecycle :
    SPD3303C_init =
      (.ok (), [.write "OUTPut CH1,OFF", .write "OUTPut CH2,OFF",
                .write "OUTPut CH3,OFF"]) ∧
    shutdown =
      (.ok (), [.wire (.write "OUTPut CH1,OFF"), .wire (.write "OUTPut CH2,OFF"),
                .wire (.write "OUTPut CH3,OFF"), .closeSession]) ∧
    shutdown.2.count .closeSession = 1 :=
  ⟨rfl, rfl, rfl⟩

/-- C7: the voltage setters report `rangeError` exactly for values
outside [0, 32], the current setters exactly for values outside
[0, 3.2]; boundary values pass the validator. -/
theorem c7_range_validation :
    (∀ v : ℚ,
      ((ch1_voltage_set v).1 = .error .rangeError ↔ v < 0 ∨ 32 < v) ∧
      ((ch2_voltage_set v).1 = .error .rangeError ↔ v < 0 ∨ 32 < v)) ∧
    (∀ i : ℚ,
      ((ch1_current_set i).1 = .error .rangeError ↔ i < 0 ∨ 3.2 < i) ∧
      ((ch2_current_set i).1 = .error .rangeError ↔ i < 0 ∨ 3.2 < i)) := by
  constructor
  · intro v
    exact ⟨set_ranged_rangeError_iff _ 0 32 (by norm_num) v,
           set_ranged_rangeError_iff _ 0 32 (by norm_num) v⟩
  · intro i
    exact ⟨set_ranged_rangeError_iff _ 0 3.2 (by norm_num) i,
           set_ranged_rangeError_iff _ 0 3.2 (by norm_num) i⟩

/-- C8: every setter that fails — for any reason, in particular a
validation failure — has sent nothing to the instrument. -/
theorem c8_fail_fast :
    (∀ v e, (ch1_voltage_set v).1 = .error e → (ch1_voltage_set v).2 = []) ∧
    (∀ v e, (ch2_voltage_set v).1 = .error e → (ch2_voltage_set v).2 = []) ∧
    (∀ i e, (ch1_current_set i).1 = .error e → (ch1_current_set i).2 = []) ∧
    (∀ i e, (ch2_current_set i).1 = .error e → (ch2_current_set i).2 = []) ∧
    (∀ b e, (ch1_status_set b).1 = .error e → (ch1_status_set b).2 = []) ∧
    (∀ b e, (ch2_status_set b).1 = .error e → (ch2_status_set b).2 = []) ∧
    (∀ b e, (ch3_status_set b).1 = .error e → (ch3_status_set b).2 = []) :=
  ⟨fun v e h => set_ranged_error_no_write _ _ v e h,
   fun v e h => set_ranged_error_no_write _ _ v e h,
   fun i e h => set_ranged_error_no_write _ _ i e h,
   fun i e h => set_ranged_error_no_write _ _ i e h,
   fun b e h => set_mapped_error_no_write _ _ b e h,
   fun b e h => set_mapped_error_no_write _ _ b e h,
   fun b e h => set_mapped_error_no_write _ _ b e h⟩

/-- Witness for C8: an out-of-range voltage set fails with `rangeError`
and produced no wire traffic. -/
theorem c8_witness :
    (ch1_voltage_set 33).1 = .error .rangeError ∧ (ch1_voltage_set 33).2 = [] :=
  ⟨rfl, c8_fail_fast.1 33 .rangeError rfl⟩

/-- C9: `_decode_channel_status` rejects every channel outside {1, 2}
with `invalidArgument`, and is total (returns some token) on channels in
{1, 2}. -/
theorem c9_decode_guard :
    (∀ status : Int, ∀ channel : Nat, channel ∉ CONTROLLABLE_CHANNELS →
        _decode_channel_status status channel = .error .invalidArgument) ∧
    (∀ status : Int, ∀ channel : Nat, channel ∈ CONTROLLABLE_CHANNELS →
        ∃ tok, _decode_channel_status status channel = .ok tok) := by
  constructor
  · intro st ch h
    simp [_decode_channel_status, h]
  · intro st ch h
    simp only [_decode_channel_status, if_pos h]
    exact ⟨_, rfl⟩

/-- Witness for C9: channel 3 is rejected, channel 1 succeeds. -/
theorem c9_witness :
    ((3 ∉ CONTROLLABLE_CHANNELS) ∧
      _decode_channel_status 5 3 = .error .invalidArgument) ∧
    ((1 ∈ CONTROLLABLE_CHANNELS) ∧ ∃ tok, _decode_channel_status 5 1 = .ok tok) :=
  ⟨⟨by decide, c9_decode_guard.1 5 3 (by decide)⟩,
   ⟨by decide, c9_decode_guard.2 5 1 (by decide)⟩⟩

/-- C10: reading `ch3_status` fails without any instrument I/O, while
`ch1_status` and `ch2_status` are readable. -/
theorem c10_ch3_write_only :
    (ch3_status_get = (.error .notReadable, []) ∧ ch3_status_get.2 = []) ∧
    (ch1_status_get (fun _ => "0x30")).1 = .ok true ∧
    (ch2_status_get (fun _ => "0x30")).1 = .ok true :=
  ⟨⟨rfl, rfl⟩, rfl, rfl⟩

end SPD3303C
